import Mathlib

/-!
Verification of the microphone capture / VAD pipeline
(`src/interface/asr/microphone.py`) of the walkie-ai repository.

Shallow embedding conventions:
* Audio samples are 16-bit PCM values modelled as `Int` (the code records
  with `dtype=np.int16`, and `_resample` restores the dtype with
  `.astype(audio.dtype)`, so sample values stay integer along the capture
  path; the final `.astype(np.float32)` in `_resample_to_vad_chunk` is
  value-preserving on this range and is dropped from the model).
* `scipy.signal.resample(x, num)` is an external library call whose only
  property used by the code is its contract: it returns exactly `num`
  output samples.  It is modelled by an abstract function parameter
  `sig : List Int → Nat → List Int` together with the length contract
  `∀ a n, (sig a n).length = n`; `sigModel` below is one concrete
  instance of that contract used to evaluate theorems on closed inputs.
* The Silero `VADIterator` is likewise external and stateful; it is
  modelled by an abstract step function `vadStep : V → frame → V × Option VadRes`
  over an abstract state type `V`, where a returned `VadRes` records
  whether the result dict contains a `"start"` and/or an `"end"` key
  (`None` maps to `none`).
* Python `int(x)` on a non-negative float quotient is modelled by `Nat`
  floor division, and Python mutation of the closure variables of the
  recording callback by explicit state passing over `SessionState`.
-/

/-- Result dict returned by a `VADIterator` call: which of the keys
`"start"` / `"end"` it contains.  `Option VadRes` models `dict | None`. -/
structure VadRes where
  hasStart : Bool
  hasEnd : Bool
deriving Repr, DecidableEq

/-- Embedding of `_resample(audio, orig_sr, target_sr)` (microphone.py
lines 53-58): identity when the rates match, otherwise delegate to
`scipy.signal.resample` (abstracted as `sig`) with
`num_samples = int(len(audio) * target_sr / orig_sr)`. -/
def _resample (sig : List Int → Nat → List Int) (audio : List Int)
    (orig_sr target_sr : Nat) : List Int :=
  if orig_sr = target_sr then audio
  else sig audio (audio.length * target_sr / orig_sr)

/-- A concrete instance of the `scipy.signal.resample` length contract
(returns exactly `n` samples), used to evaluate theorems on closed
inputs.  Only the output length is ever relied upon. -/
def sigModel (_a : List Int) (n : Nat) : List Int :=
  List.replicate n 0

/-- Round-to-nearest of the rational `num / den` (half rounds up; every
use below is at a non-tie point, where Python's banker's `round` agrees). -/
def roundNearest (num den : Nat) : Nat :=
  (2 * num + den) / (2 * den)

/-- Output length of `_resample` as a pure function of the input length
and the two rates (mirrors lines 55-57 of microphone.py). -/
def resampleNumSamples (n orig_sr target_sr : Nat) : Nat :=
  if orig_sr = target_sr then n else n * target_sr / orig_sr

/-- The frame-fitting step of `_resample_to_vad_chunk` (microphone.py
lines 123-127): truncate past `frame_size`, or right-pad with `z`
(`np.pad` pads zeros) up to `frame_size`; the spec calls this operation
`fit_to_frame`. -/
def fit_to_frame {α : Type} (z : α) (s : List α) (frame_size : Nat) : List α :=
  if frame_size < s.length then s.take frame_size
  else if s.length < frame_size then s ++ List.replicate (frame_size - s.length) z
  else s

/-- Embedding of `Microphone._resample_to_vad_chunk` (lines 115-129):
resample to 16 kHz when the device rate differs, then fit to exactly
512 samples. -/
def resample_to_vad_chunk (sig : List Int → Nat → List Int)
    (deviceRate : Nat) (audio : List Int) : List Int :=
  let resampled := if deviceRate ≠ 16000 then _resample sig audio deviceRate 16000 else audio
  fit_to_frame 0 resampled 512

/-- Derived device-native chunk size (line 100):
`int(VAD_CHUNK_SAMPLES * device_sample_rate / VAD_SAMPLE_RATE)`. -/
def chunk_size (deviceRate : Nat) : Nat :=
  512 * deviceRate / 16000

/-- Configuration stored by `Microphone.__init__` (lines 71-104).  The
constructor body assigns the arguments verbatim; it contains no
validation, clamping or raise path for any of them (the only fallible
steps are the external device query and model load). -/
structure MicConfig where
  threshold : Rat
  min_silence_duration_ms : Int
  speech_pad_ms : Int
deriving Repr, DecidableEq

/-- Embedding of the configuration-handling part of
`Microphone.__init__`: every argument is stored unchanged. -/
def micInit (threshold : Rat) (minSilence speechPad : Int) : MicConfig :=
  { threshold := threshold
    min_silence_duration_ms := minSilence
    speech_pad_ms := speechPad }

/-- Mutable state of one `record_until_silence` session (lines 140-143),
with the external VAD iterator state threaded through as `vad : V`. -/
structure SessionState (V : Type) where
  chunks : List (List Int)
  speech_started : Bool
  speech_ended : Bool
  vad : V

/-- Fresh session state after `_reset_vad` with VAD state `v0`. -/
def initSession {V : Type} (v0 : V) : SessionState V :=
  { chunks := [], speech_started := false, speech_ended := false, vad := v0 }

/-- Embedding of the capture callback of `record_until_silence`
(lines 145-163): early-return when `speech_ended` is set; otherwise
append the chunk, resample it to the VAD frame, run the VAD iterator
and update the flags from the `"start"` / `"end"` keys of its result. -/
def callbackStep {V : Type} (sig : List Int → Nat → List Int)
    (vadStep : V → List Int → V × Option VadRes) (deviceRate : Nat)
    (st : SessionState V) (indata : List Int) : SessionState V :=
  if st.speech_ended then st
  else
    let chunk := indata
    let vadChunk := resample_to_vad_chunk sig deviceRate chunk
    let res := vadStep st.vad vadChunk
    { chunks := st.chunks ++ [chunk]
      speech_started :=
        match res.2 with
        | some r => st.speech_started || r.hasStart
        | none => st.speech_started
      speech_ended :=
        match res.2 with
        | some r => st.speech_ended || r.hasEnd
        | none => st.speech_ended
      vad := res.1 }

/-- Result of `record_until_silence` (lines 174-183) as a function of
the trace of chunks the device delivered to the callback before the
stream was closed: fold the callback over the trace, then return the
empty byte sequence when no chunks accumulated, else the bulk resample
of the concatenated buffer to 16 kHz (returned here as samples; the
byte sequence is their 16-bit serialization, empty iff the sample list
is). -/
def record_until_silence_output {V : Type} (sig : List Int → Nat → List Int)
    (vadStep : V → List Int → V × Option VadRes) (v0 : V) (deviceRate : Nat)
    (trace : List (List Int)) : List Int :=
  let final := trace.foldl (callbackStep sig vadStep deviceRate) (initSession v0)
  if final.chunks.isEmpty then []
  else _resample sig final.chunks.flatten deviceRate 16000

/-- Number of device-rate samples captured by `record_seconds`
(line 194): `int(device_sample_rate * duration)`, with the float
`duration` given as the exact fraction `durNum / durDen`. -/
def record_seconds_numSamples (deviceRate durNum durDen : Nat) : Nat :=
  deviceRate * durNum / durDen

/-- Number of output bytes of `record_seconds` (lines 185-206): the
captured samples are bulk-resampled to 16 kHz and serialized as 16-bit
PCM, two bytes per sample. -/
def record_seconds_numBytes (deviceRate durNum durDen : Nat) : Nat :=
  2 * resampleNumSamples (record_seconds_numSamples deviceRate durNum durDen) deviceRate 16000

/-- Normalization step of `is_speech` (lines 217-218) for integer PCM
input: `astype(np.float32) / 32768.0`, modelled exactly over `Rat`. -/
def normalize_int16 (c : List Int) : List Rat :=
  c.map (fun x => (x : Rat) / 32768)

/-- Embedding of `Microphone.is_speech` (lines 208-221): normalize the
integer frame, run one step of the shared VAD iterator (state threaded,
never reset), and return `result is not None and "start" in result`. -/
def is_speech {V : Type} (vadStep : V → List Rat → V × Option VadRes)
    (v : V) (c : List Int) : V × Bool :=
  let res := vadStep v (normalize_int16 c)
  (res.1,
    match res.2 with
    | some r => r.hasStart
    | none => false)

/-! ## Theorems -/

/-- Claim C4: `resample(s, r, r)` returns `s` unchanged for every sample
sequence `s` (including the empty one) and every rate `r`, for any
underlying library resampler `sig`. -/
theorem C4_resample_identity (sig : List Int → Nat → List Int)
    (audio : List Int) (r : Nat) :
    _resample sig audio r r = audio := by
  simp [_resample]

/-- Claim C2 (amended): when the rates differ, `_resample` requests and
receives exactly `int(len(audio) * target_sr / orig_sr)` output samples
(floor division), for any resampler `sig` meeting the
`scipy.signal.resample` length contract. -/
theorem C2_resample_length (sig : List Int → Nat → List Int)
    (hsig : ∀ a n, (sig a n).length = n)
    (audio : List Int) (orig_sr target_sr : Nat)
    (hne : orig_sr ≠ target_sr) :
    (_resample sig audio orig_sr target_sr).length
      = audio.length * target_sr / orig_sr := by
  simp [_resample, hne, hsig]

/-- Witness for C2 (amended): a 5-sample input resampled from rate 6 to
rate 2 yields `int(5 * 2 / 6) = 1` sample. -/
theorem C2_resample_length_witness :
    (_resample sigModel ([1, 2, 3, 4, 5] : List Int) 6 2).length = 1 :=
  C2_resample_length sigModel (fun _ n => List.length_replicate n 0)
    [1, 2, 3, 4, 5] 6 2 (by decide)

/-- Counterexample to Claim C2 as stated: for the 5-sample input and the
positive rates 6 ≠ 2, the code produces `int(5 * 2 / 6) = 1` sample,
while `round(5 * 2 / 6) = round(1.66…) = 2` (a non-tie point, so
Python's `round` agrees with `roundNearest`). -/
theorem C2_counterexample :
    (_resample sigModel ([1, 2, 3, 4, 5] : List Int) 6 2).length
      ≠ roundNearest (([1, 2, 3, 4, 5] : List Int).length * 2) 6 := by
  decide

/-- Claim C6: `record_seconds(1.0)` at device rate 44100 returns exactly
32000 bytes (16000 16-bit mono samples), which is within the claimed
±1-sample tolerance. -/
theorem C6_record_seconds_bytes :
    record_seconds_numBytes 44100 1 1 = 32000 ∧
    31998 ≤ record_seconds_numBytes 44100 1 1 ∧
    record_seconds_numBytes 44100 1 1 ≤ 32002 := by
  decide

/-- Claim C8 (amended): the device-native chunk size is the floor
`int(512 * device_rate / 16000)`, i.e. the unique value `c` with
`16000 * c ≤ 512 * rate < 16000 * (c + 1)`; it can fall one below
`round(512 * rate / 16000)`. -/
theorem C8_chunk_size_floor (deviceRate : Nat) :
    16000 * chunk_size deviceRate ≤ 512 * deviceRate ∧
    512 * deviceRate < 16000 * (chunk_size deviceRate + 1) := by
  have h := Nat.div_add_mod (512 * deviceRate) 16000
  have h2 : (512 * deviceRate) % 16000 < 16000 :=
    Nat.mod_lt _ (by norm_num)
  unfold chunk_size
  omega

/-- Counterexample to Claim C8 as stated: at device rate 22050 the code
requests a chunk of `int(512 * 22050 / 16000) = 705` samples, while
`round(512 * 22050 / 16000) = round(705.6) = 706`. -/
theorem C8_counterexample :
    chunk_size 22050 = 705 ∧ roundNearest (512 * 22050) 16000 = 706 := by
  decide

/-- Claim C5: `record_until_silence` with timeout 0 exits its polling
loop immediately; when the device delivered no chunks at all (empty
trace), the accumulation buffer is empty and the empty byte sequence is
returned, with no error path taken (the embedding is a total function). -/
theorem C5_empty_trace_empty_output {V : Type}
    (sig : List Int → Nat → List Int)
    (vadStep : V → List Int → V × Option VadRes) (v0 : V) (deviceRate : Nat) :
    record_until_silence_output sig vadStep v0 deviceRate [] = [] := by
  simp [record_until_silence_output, initSession]

/-- Claim C1: once `speech_ended` holds, the capture callback is a
no-op: the chunk list, both flags and the VAD iterator state are all
unchanged, for any device rate, resampler and VAD step function (the
callback early-returns before appending or processing). -/
theorem C1_callback_noop_when_ended {V : Type}
    (sig : List Int → Nat → List Int)
    (vadStep : V → List Int → V × Option VadRes) (deviceRate : Nat)
    (st : SessionState V) (indata : List Int)
    (h : st.speech_ended = true) :
    callbackStep sig vadStep deviceRate st indata = st := by
  simp [callbackStep, h]

/-- Witness for C1: a concrete ended state is left untouched by a
callback invocation. -/
theorem C1_callback_noop_when_ended_witness :
    callbackStep sigModel (fun (v : Unit) _ => (v, (none : Option VadRes))) 48000
      { chunks := [[1, 2]], speech_started := true, speech_ended := true, vad := () }
      [3, 4]
    = { chunks := [[1, 2]], speech_started := true, speech_ended := true, vad := () } :=
  C1_callback_noop_when_ended sigModel _ 48000 _ _ rfl

/-- Claim C3: `fit_to_frame` always returns exactly `N` elements, by
truncation to the first `N` when the input is longer and by right
zero-padding when it is shorter; the embedding is a total function, so
no error is possible. -/
theorem C3_fit_to_frame_exact {α : Type} (z : α) (s : List α) (N : Nat) :
    (fit_to_frame z s N).length = N ∧
    (N < s.length → fit_to_frame z s N = s.take N) ∧
    (s.length < N → fit_to_frame z s N = s ++ List.replicate (N - s.length) z) := by
  by_cases h1 : N < s.length
  · have h2 : ¬ s.length < N := by omega
    refine ⟨?_, fun _ => ?_, fun hc => absurd hc h2⟩
    · simp [fit_to_frame, h1, Nat.min_eq_left (Nat.le_of_lt h1)]
    · simp [fit_to_frame, h1]
  · by_cases h2 : s.length < N
    · refine ⟨?_, fun hc => absurd hc h1, fun _ => ?_⟩
      · simp [fit_to_frame, h1, h2]
        omega
      · simp [fit_to_frame, h1, h2]
    · have h3 : s.length = N := by omega
      refine ⟨?_, fun hc => absurd hc h1, fun hc => absurd hc h2⟩
      simp [fit_to_frame, h1, h2, h3]

/-- Witness for C3: both the truncation branch (3 samples into a
2-frame) and the padding branch (1 sample into a 3-frame) at concrete
inputs. -/
theorem C3_fit_to_frame_exact_witness :
    (fit_to_frame (0 : Int) [1, 2, 3] 2).length = 2 ∧
    fit_to_frame (0 : Int) [1, 2, 3] 2 = [1, 2] ∧
    fit_to_frame (0 : Int) [5] 3 = [5] ++ List.replicate (3 - ([5] : List Int).length) 0 :=
  ⟨(C3_fit_to_frame_exact 0 [1, 2, 3] 2).1,
   (C3_fit_to_frame_exact 0 [1, 2, 3] 2).2.1 (by decide),
   (C3_fit_to_frame_exact 0 [5] 3).2.2 (by decide)⟩

/-- Claim C7 (amended): `__init__` stores an out-of-range threshold
verbatim — construction succeeds, the value is neither rejected nor
clamped into [0,1], and no configuration error exists to be raised at
construction or at call time. -/
theorem C7_threshold_stored_unvalidated (t : Rat) (m s : Int)
    (hout : t < 0 ∨ 1 < t) :
    (micInit t m s).threshold = t ∧
    ((micInit t m s).threshold < 0 ∨ 1 < (micInit t m s).threshold) :=
  ⟨rfl, by simpa [micInit] using hout⟩

/-- Witness for C7 (amended): threshold 3/2 is stored as-is and remains
above 1. -/
theorem C7_threshold_stored_unvalidated_witness :
    (micInit (3 / 2 : Rat) 500 100).threshold = 3 / 2 ∧
    ((micInit (3 / 2 : Rat) 500 100).threshold < 0 ∨
      1 < (micInit (3 / 2 : Rat) 500 100).threshold) :=
  C7_threshold_stored_unvalidated (3 / 2) 500 100 (Or.inr (by norm_num))

/-- Counterexample to Claim C7 as stated: constructing with threshold
1.5 neither fails nor clamps — the configuration produced carries the
out-of-range value 3/2, which exceeds 1. -/
theorem C7_counterexample :
    (micInit (3 / 2 : Rat) 500 100).threshold = 3 / 2 ∧
    ¬ (micInit (3 / 2 : Rat) 500 100).threshold ≤ 1 := by
  refine ⟨rfl, ?_⟩
  norm_num [micInit]

/-- Claim C9: `is_speech` returns true iff the shared VAD iterator's
result on the frame (normalized by dividing each 16-bit PCM sample by
32768) is non-None and contains a `"start"` key; the iterator state
after the call is exactly the stepped state — it is not reset. -/
theorem C9_is_speech_iff_start {V : Type}
    (vadStep : V → List Rat → V × Option VadRes) (v : V) (c : List Int) :
    ((is_speech vadStep v c).2 = true ↔
      ∃ r, (vadStep v (c.map fun x => (x : Rat) / 32768)).2 = some r ∧
        r.hasStart = true) ∧
    (is_speech vadStep v c).1 = (vadStep v (c.map fun x => (x : Rat) / 32768)).1 := by
  constructor
  · simp only [is_speech, normalize_int16]
    cases h : (vadStep v (List.map (fun x => (x : Rat) / 32768) c)).2 with
    | none => simp [h]
    | some r => simp [h]
  · rfl

/-- Helper: when the input is no longer than the frame, `fit_to_frame`
only right-pads (it keeps the whole input as a prefix). -/
theorem fit_to_frame_of_length_le {α : Type} (z : α) (s : List α) (N : Nat)
    (h : s.length ≤ N) :
    fit_to_frame z s N = s ++ List.replicate (N - s.length) z := by
  rcases Nat.lt_or_ge s.length N with h1 | h1
  · simp [fit_to_frame, Nat.not_lt.mpr h, h1]
  · have h2 : s.length = N := le_antisymm h h1
    simp [fit_to_frame, Nat.not_lt.mpr h, h2]

/-- Helper: at a positive device rate, resampling a chunk of the derived
device-native size down to 16 kHz yields at most 512 samples. -/
theorem chunk_resampled_le_512 (r : Nat) (hr : 0 < r) :
    chunk_size r * 16000 / r ≤ 512 := by
  have h1 : chunk_size r * 16000 ≤ 512 * r := by
    have h := Nat.div_mul_le_self (512 * r) 16000
    unfold chunk_size
    omega
  calc chunk_size r * 16000 / r ≤ 512 * r / r := Nat.div_le_div_right h1
    _ = 512 := Nat.div_eq_of_eq_mul_left hr rfl

/-- Claim C10: for every positive device rate, resampling a chunk of the
derived size to 16 kHz yields `int(chunk_size * 16000 / device_rate)`
samples, always at most 512, so on the VAD path the frame-fitting step
only ever zero-pads the resampled chunk and never truncates it. -/
theorem C10_vad_path_only_pads (deviceRate : Nat)
    (sig : List Int → Nat → List Int) (hr : 0 < deviceRate)
    (hsig : ∀ a n, (sig a n).length = n)
    (audio : List Int) (ha : audio.length = chunk_size deviceRate) :
    resampleNumSamples (chunk_size deviceRate) deviceRate 16000 ≤ 512 ∧
    resample_to_vad_chunk sig deviceRate audio =
      (if deviceRate ≠ 16000 then _resample sig audio deviceRate 16000 else audio) ++
        List.replicate
          (512 -
            (if deviceRate ≠ 16000 then _resample sig audio deviceRate 16000
             else audio).length) 0 := by
  have h512 : chunk_size 16000 = 512 := by decide
  have hlen : (if deviceRate ≠ 16000 then _resample sig audio deviceRate 16000
      else audio).length ≤ 512 := by
    by_cases hd : deviceRate = 16000
    · subst hd
      simp [ha, h512]
    · simp [hd, _resample, hsig, ha]
      exact chunk_resampled_le_512 _ hr
  constructor
  · unfold resampleNumSamples
    by_cases hd : deviceRate = 16000
    · subst hd
      simp [h512]
    · simp [hd]
      exact chunk_resampled_le_512 _ hr
  · unfold resample_to_vad_chunk
    exact fit_to_frame_of_length_le 0 _ 512 hlen

/-- Witness for C10: device rate 44100 gives chunk size 1411, which
resamples to 511 ≤ 512 samples, and the VAD frame is the resampled
chunk plus zero padding. -/
theorem C10_vad_path_only_pads_witness :
    resampleNumSamples (chunk_size 44100) 44100 16000 ≤ 512 ∧
    resample_to_vad_chunk sigModel 44100 (List.replicate 1411 1) =
      (if (44100 : Nat) ≠ 16000 then
        _resample sigModel (List.replicate 1411 1) 44100 16000
       else List.replicate 1411 1) ++
        List.replicate
          (512 -
            (if (44100 : Nat) ≠ 16000 then
              _resample sigModel (List.replicate 1411 1) 44100 16000
             else List.replicate 1411 1).length) 0 :=
  C10_vad_path_only_pads 44100 sigModel (by norm_num)
    (fun _ n => List.length_replicate n 0) (List.replicate 1411 1)
    (by rw [List.length_replicate]; decide)
